import Mathlib

set_option autoImplicit false
set_option linter.unusedVariables false

namespace SynapseGenie

/-! Verification of the synapsegenie file-type dispatch, validation and
processing framework.  The class `FileTypeFormat`
(genie/example_filetype_format.py) and the handler `Csv`
(example_registry/csv.py) are embedded from their sources; the functions of
genie/validate.py are reconstructed from the specification and from the
behaviour pinned down by the unit tests. -/

/-! Parameter bags: Python keyword-argument dictionaries. -/

/-- Parameter bag: a Python kwargs dictionary, embedded as an association
list whose observable behaviour is key lookup (first binding wins). -/
abbrev Bag (V : Type) : Type := List (String × V)

/-- Dictionary lookup, as in Python `kwargs[key]`; `key in kwargs.keys()`
is embedded as this lookup returning a value. -/
def dictGet {V : Type} (kwargs : Bag V) (key : String) : Option V :=
  List.lookup key kwargs

/-- Python `kwargs.update(other)`: in the updated dictionary a key bound in
`other` takes the value from `other`, and every other key keeps its value
from `kwargs`.  Embedded lookup-equivalently by prepending `other`. -/
def dictUpdate {V : Type} (kwargs other : Bag V) : Bag V :=
  other ++ kwargs

/-! The FileTypeFormat template class (genie/example_filetype_format.py). -/

/-- Shallow embedding of the class `FileTypeFormat`.  `A` is the type of
the first positional argument of `process` (a file path, or an already
loaded data frame, as the caller chooses), `D` the type produced by
`readFile`, `V` the type of keyword-argument values and `R` the result
type of `process_steps`.  The fields hold the attributes and overridable
methods the wrappers `process` and `validate` read on `self`. -/
structure FileTypeFormat (A D V R : Type) where
  _process_kwargs : List String
  _validation_kwargs : List String
  _fileType : String
  preprocess : A → Bag V → Bag V
  process_steps : A → Bag V → R
  readFile : List String → D
  _validate : D → Bag V → String × String

/-- Loop shared by `FileTypeFormat.process` and `FileTypeFormat.validate`:
for each name in `required` (in order), assert that it is a key of
`kwargs` — a failing Python assert, with its message
`"%s not in parameter list"`, is embedded as `Except.error` — and copy the
binding into the forwarded dictionary `mykwargs`. -/
def buildRequired {V : Type} : List String → Bag V → Except String (Bag V)
  | [], _ => Except.ok []
  | p :: rest, kwargs =>
    match dictGet kwargs p with
    | none => Except.error (p ++ " not in parameter list")
    | some v =>
      match buildRequired rest kwargs with
      | Except.error e => Except.error e
      | Except.ok mykwargs => Except.ok ((p, v) :: mykwargs)

/-- Embedding of `FileTypeFormat.process`: run `preprocess`, merge its
output into the keyword arguments, check that every name in
`_process_kwargs` is bound (collecting exactly those bindings into
`mykwargs`), then call `process_steps` on the first positional argument
and `mykwargs` only. -/
def FileTypeFormat.process {A D V R : Type} (self : FileTypeFormat A D V R)
    (filePath : A) (kwargs : Bag V) : Except String R :=
  let preprocess_args := self.preprocess filePath kwargs
  let merged := dictUpdate kwargs preprocess_args
  match buildRequired self._process_kwargs merged with
  | Except.error e => Except.error e
  | Except.ok mykwargs => Except.ok (self.process_steps filePath mykwargs)

/-- Embedding of `FileTypeFormat.validate`: check that every name in
`_validation_kwargs` is bound (collecting exactly those bindings), then
read the file list with `readFile` and run `_validate` on the resulting
frame and the collected bindings only. -/
def FileTypeFormat.validate {A D V R : Type} (self : FileTypeFormat A D V R)
    (filePathList : List String) (kwargs : Bag V) :
    Except String (String × String) :=
  match buildRequired self._validation_kwargs kwargs with
  | Except.error e => Except.error e
  | Except.ok mykwargs =>
    let df := self.readFile filePathList
    Except.ok (self._validate df mykwargs)

/-- Two parameter bags agree on a list of keys when lookup returns the same
value for every key in the list. -/
def agreeOn {V : Type} (keys : List String) (b1 b2 : Bag V) : Prop :=
  ∀ k, k ∈ keys → dictGet b1 k = dictGet b2 k

instance {V : Type} [DecidableEq V] (keys : List String) (b1 b2 : Bag V) :
    Decidable (agreeOn keys b1 b2) :=
  List.decidableBAll _ keys

/-! Tabular data and the file store, used by the Csv handler. -/

/-- Tabular record set: a pandas data frame embedded as a header row plus
data rows of string cells (pandas parsing and dtypes are external
collaborators and are out of scope). -/
structure DataFrame where
  columns : List String
  rows : List (List String)
  deriving DecidableEq

/-- Pandas `df.empty` for the frames this code builds: the frame has no
data rows. -/
def DataFrame.empty (df : DataFrame) : Bool := df.rows.isEmpty

/-- File store: maps a path to the tab-delimited table stored there.
Pandas reading and writing of tab-separated files at a path are embedded
as lookup and prepend on this store. -/
abbrev FileStore : Type := List (String × DataFrame)

/-- Read the table stored at `path`, if any. -/
def readStore (store : FileStore) (path : String) : Option DataFrame :=
  List.lookup path store

/-- Store `df` at `path` (later bindings shadow earlier ones). -/
def writeStore (store : FileStore) (path : String) (df : DataFrame) : FileStore :=
  (path, df) :: store

/-- Embedding of the default `FileTypeFormat.readFile`: take the first
path of the list and read it from the store as a tab-delimited table.
`none` embeds the Python errors on an empty path list or a missing
file. -/
def defaultReadFile (store : FileStore) (filePathList : List String) : Option DataFrame :=
  match filePathList with
  | [] => none
  | filePath :: _ => readStore store filePath

/-! The Csv handler (example_registry/csv.py). -/

/-- Class attribute `Csv._filetype` (lowercase t: this is not the
`_fileType` attribute the base class reads). -/
def Csv._filetype : String := "csv"

/-- Python `str.upper` on a header: uppercase every character.  This is
`String.toUpper` reformulated through the character list so that proofs
can evaluate it. -/
def strUpper (s : String) : String := String.mk (s.data.map Char.toUpper)

/-- Embedding of `Csv._process`: uppercase every column header. -/
def Csv._process (df : DataFrame) : DataFrame :=
  { df with columns := df.columns.map strUpper }

/-- Embedding of `Csv.process_steps`: uppercase the headers via
`_process`, write the result tab-delimited to `newPath` (the Synapse
table update on `databaseSynId` is commented out in the source) and
return `newPath`.  The write is a state transition on the file store. -/
def Csv.process_steps (df : DataFrame) (newPath databaseSynId : String)
    (store : FileStore) : String × FileStore :=
  let df2 := Csv._process df
  (newPath, writeStore store newPath df2)

/-- Embedding of `Csv._validate`: an empty frame produces the single
error finding built from `_filetype`. -/
def Csv._validate (df : DataFrame) : String × String :=
  let total_error := ""
  let warning := ""
  let total_error :=
    if df.empty then total_error ++ (Csv._filetype ++ ": File must not be empty")
    else total_error
  (total_error, warning)

/-- The `Csv` handler packaged as a `FileTypeFormat` record, with the
attribute inheritance of the Python classes resolved: `Csv` declares
`_process_kwargs` and overrides `process_steps` and `_validate`, while
`_validation_kwargs`, `_fileType` (`Csv` only sets `_filetype`),
`preprocess` and `readFile` come from the base class.  The first
positional argument of `process` is the loaded frame, as
`Csv.process_steps` expects; the result of `process_steps` is a state
transition on the file store, and `none` there embeds the Python
TypeError when a keyword binding expected by `Csv.process_steps` is
absent (unreachable through the `process` wrapper). -/
def csvHandler (store : FileStore) :
    FileTypeFormat DataFrame (Option DataFrame) String
      (Option (FileStore → String × FileStore)) where
  _process_kwargs := ["newPath", "databaseSynId"]
  _validation_kwargs := []
  _fileType := "fileType"
  preprocess := fun _ _ => []
  process_steps := fun df mykwargs =>
    match dictGet mykwargs "newPath", dictGet mykwargs "databaseSynId" with
    | some newPath, some databaseSynId =>
      some (Csv.process_steps df newPath databaseSynId)
    | _, _ => none
  readFile := defaultReadFile store
  _validate := fun df? _ =>
    match df? with
    | some df => Csv._validate df
    | none => ("", "")

/-! Python attribute resolution for `validateFilename` on a `Csv`
instance.  The base class `validateFilename` reads the attributes
`_validateFilename` and `_fileType` on `self`; which definitions those
names resolve to is exactly what claim C9 is about, so the lookup along
the method resolution order (`Csv`, then `FileTypeFormat`) is embedded
explicitly. -/

/-- Python class-attribute values relevant here: strings, lists of
strings, and one-argument methods that may raise (an AssertionError is
embedded as `Except.error`). -/
inductive PyAttr : Type where
  | str (s : String)
  | strList (l : List String)
  | meth (f : List String → Except String Unit)

/-- Python `os.path.basename`: the part of the path after the last
slash. -/
def basename (path : String) : String :=
  (path.splitOn "/").getLastD path

/-- Embedding of the body of `Csv._validate_filetype` applied to one
path: assert that the basename of the path ends in ".csv". -/
def Csv._validate_filetype (filePath : String) : Except String Unit :=
  if (basename filePath).endsWith ".csv" then Except.ok ()
  else Except.error "AssertionError"

/-- Class dictionary of `FileTypeFormat` restricted to the attributes
involved in filename validation; the `_validateFilename` hook body in the
base class is `pass`. -/
def fileTypeFormatClassDict : List (String × PyAttr) :=
  [("_process_kwargs", PyAttr.strList ["newPath", "databaseSynId"]),
   ("_fileType", PyAttr.str "fileType"),
   ("_validation_kwargs", PyAttr.strList []),
   ("_validateFilename", PyAttr.meth (fun _ => Except.ok ()))]

/-- Class dictionary of `Csv` (example_registry/csv.py): it defines
`_filetype` (lowercase t) and the hook `_validate_filetype`, and not the
names `_fileType` and `_validateFilename` that the base class reads.  The
hook body is a parameter so that theorems can quantify over it (the
source body, an assert on a single path, is `Csv._validate_filetype`
above). -/
def csvClassDict (hook : List String → Except String Unit) :
    List (String × PyAttr) :=
  [("_filetype", PyAttr.str "csv"),
   ("_process_kwargs", PyAttr.strList ["newPath", "databaseSynId"]),
   ("_validate_filetype", PyAttr.meth hook)]

/-- Python attribute lookup on a `Csv` instance: search the `Csv` class
dictionary first, then the `FileTypeFormat` one. -/
def csvAttr (hook : List String → Except String Unit) (name : String) :
    Option PyAttr :=
  match List.lookup name (csvClassDict hook) with
  | some a => some a
  | none => List.lookup name fileTypeFormatClassDict

/-- Embedding of `FileTypeFormat.validateFilename` over an
attribute-lookup function: call the resolved `_validateFilename` on the
file path list, then return the resolved `_fileType` attribute.  An
unresolvable or non-method attribute embeds a Python AttributeError or
TypeError as `Except.error`. -/
def validateFilenameVia (attr : String → Option PyAttr)
    (filePathList : List String) : Except String String :=
  match attr "_validateFilename" with
  | some (PyAttr.meth f) =>
    match f filePathList with
    | Except.error e => Except.error e
    | Except.ok _ =>
      match attr "_fileType" with
      | some (PyAttr.str s) => Except.ok s
      | _ => Except.error "AttributeError"
  | _ => Except.error "AttributeError"

/-! The functions of genie/validate.py.  That module is not under src
(only its unit tests, src/tests/unit/test_validate.py, are), so the
definitions below are reconstructed: each is marked as modelled from the
specification, with the tests pinning the literal messages. -/

/-- Modelled from the spec: a registered handler as the dispatcher of
genie/validate.py sees it — genie/validate.py is missing from src.  A
handler carries its type tag (`_fileType`) and its filename check
(`_validateFilename`), which either passes or raises; spec section 4.2
asks each handler, in registration order, whether it recognizes the file
set. -/
structure RegHandler : Type where
  fileType : String
  check : List String → Except String Unit

/-- Modelled from the spec: `validateFilename` as the dispatcher calls it
on a registered handler — run the filename check, and on success return
the type tag (this mirrors `FileTypeFormat.validateFilename` in src). -/
def RegHandler.validateFilename (h : RegHandler)
    (filePathList : List String) : Except String String :=
  match h.check filePathList with
  | Except.error e => Except.error e
  | Except.ok _ => Except.ok h.fileType

/-- Modelled from the spec: `determine_filetype` from genie/validate.py
(missing from src; spec section 4.2): ask each registered handler in
registration order whether it recognizes the file set — a raised
AssertionError means it does not — and return the first tag obtained, or
`none` (not an error) when no handler recognizes it. -/
def determine_filetype : List RegHandler → List String → Option String
  | [], _ => none
  | h :: rest, filePathList =>
    match h.validateFilename filePathList with
    | Except.ok filetype => some filetype
    | Except.error _ => determine_filetype rest filePathList

/-- Modelled from the spec: a registered handler as the validation
pipeline of genie/validate.py sees it — the dispatcher view plus the
outcome of the handler validate wrapper on a file set (the error text and
the warning text). -/
structure VHandler extends RegHandler : Type where
  run_validation : List String → String × String

/-- Modelled from the spec: the fixed user-facing message of the
unrecognized-file-type ValueError raised by `validate_single_file`
(genie/validate.py is missing from src; the literal is pinned by
test_wrongfiletype_validate_single_file). -/
def unrecognized_message : String :=
  "Your filename is incorrect! Please change your filename before you run the validator or specify --filetype if you are running the validator locally"

/-- Modelled from the spec: `determine_validity_and_log` from
genie/validate.py (missing from src; spec section 4.3 step 4): validity
is emptiness of the error text; a valid file gets the success banner,
with the warnings block appended only when warnings exist; an invalid
file gets the errors banner followed by the error text and then the
warnings block unconditionally. -/
def determine_validity_and_log (total_error warning : String) :
    Bool × String :=
  let valid := total_error == ""
  let message :=
    if valid then "YOUR FILE IS VALIDATED!\n"
    else "----------------ERRORS----------------\n" ++ total_error
  let message :=
    if valid && warning == "" then message
    else message ++ "-------------WARNINGS-------------\n" ++ warning
  (valid, message)

/-- Modelled from the spec: `validate_single_file` from genie/validate.py
(missing from src; spec section 4.3).  When the caller supplies a
filetype it is used directly and the dispatcher is not consulted,
otherwise the dispatcher classifies the file set; a resolved tag that
does not name a registered handler — including the unresolved case —
raises the fixed ValueError (that this membership check also applies to
an explicitly supplied tag is pinned by
test_filetype_validate_single_file, where the unregistered explicit tag
foobar raises this error).  Otherwise the resolved handler validate
wrapper runs and the report is formatted; the triple (valid, message,
filetype) is returned. -/
def validate_single_file (registry : List VHandler)
    (filePathList : List String) (filetype : Option String) :
    Except String (Bool × String × String) :=
  let resolved :=
    match filetype with
    | some t => some t
    | none => determine_filetype (registry.map VHandler.toRegHandler) filePathList
  match resolved with
  | none => Except.error unrecognized_message
  | some t =>
    match registry.find? (fun h => h.fileType == t) with
    | none => Except.error unrecognized_message
    | some h =>
      let ew := h.run_validation filePathList
      let vm := determine_validity_and_log ew.1 ew.2
      Except.ok (vm.1, vm.2, t)

/-- Modelled from the spec: the guard `_check_parentid_input` from
genie/validate.py (missing from src; spec section 4.5(a)): supplying both
the destination-container override and the type override raises a
ValueError with the fixed mutual-exclusion message; otherwise nothing is
raised. -/
def _check_parentid_input (parentid filetype : Option String) :
    Except String Unit :=
  match parentid, filetype with
  | some _, some _ =>
    Except.error "If you used --parentid, you must not use --filetype"
  | _, _ => Except.ok ()

/-- Concrete registry used to exercise the pipeline on closed inputs: a
single clinical handler that recognizes exactly the file list consisting
of clinical.txt and reports no findings. -/
def clinicalHandler : VHandler where
  fileType := "clinical"
  check := fun filePathList =>
    if filePathList == ["clinical.txt"] then Except.ok ()
    else Except.error "AssertionError"
  run_validation := fun _ => ("", "")

/-- Registry holding just the clinical handler. -/
def exampleRegistry : List VHandler := [clinicalHandler]

/-- Concrete `FileTypeFormat` instantiation used to exercise the wrappers
on closed inputs: base-class defaults with a nonempty
`_validation_kwargs`. -/
def unitHandler : FileTypeFormat Unit Unit Nat Unit where
  _process_kwargs := ["newPath", "databaseSynId"]
  _validation_kwargs := ["oncotreeLink"]
  _fileType := "fileType"
  preprocess := fun _ _ => []
  process_steps := fun _ _ => ()
  readFile := fun _ => ()
  _validate := fun _ _ => ("", "")

/-- Concrete parameter bag holding all keys `unitHandler` requires plus
an extra one. -/
def bagA : Bag Nat :=
  [("newPath", 1), ("databaseSynId", 2), ("oncotreeLink", 3), ("extra", 4)]

/-- Concrete parameter bag agreeing with `bagA` on the required keys but
not holding the extra one. -/
def bagB : Bag Nat :=
  [("oncotreeLink", 3), ("databaseSynId", 2), ("newPath", 1)]

/-- Concrete input table with headers id and value. -/
def dfIn : DataFrame :=
  { columns := ["id", "value"], rows := [["1", "a"], ["2", "b"]] }

/-- Concrete file store holding `dfIn` at in.txt. -/
def store0 : FileStore := [("in.txt", dfIn)]

/-! Helper lemmas about bags and the required-parameter loop. -/

theorem dictGet_cons {V : Type} (key k : String) (v : V) (l : Bag V) :
    dictGet ((k, v) :: l) key =
      if key == k then some v else dictGet l key := by
  cases h : key == k <;> simp [dictGet, List.lookup_cons, h]

theorem dictGet_append {V : Type} (l1 l2 : Bag V) (k : String) :
    dictGet (l1 ++ l2) k =
      match dictGet l1 k with
      | some v => some v
      | none => dictGet l2 k := by
  induction l1 with
  | nil => simp [dictGet]
  | cons p rest ih =>
    obtain ⟨pk, pv⟩ := p
    rw [List.cons_append, dictGet_cons, dictGet_cons]
    cases h : (k == pk) with
    | true => simp
    | false => simp [ih]

theorem buildRequired_congr {V : Type} :
    ∀ (req : List String) (x y : Bag V), agreeOn req x y →
      buildRequired req x = buildRequired req y := by
  intro req x y
  induction req with
  | nil => intro _; rfl
  | cons p rest ih =>
    intro h
    have hp := h p (List.mem_cons_self p rest)
    have hrest := ih (fun k hk => h k (List.mem_cons_of_mem p hk))
    simp only [buildRequired, hp, hrest]

theorem buildRequired_keys {V : Type} (req : List String) (kwargs : Bag V) :
    ∀ (mykwargs : Bag V), buildRequired req kwargs = Except.ok mykwargs →
      mykwargs.map Prod.fst = req := by
  induction req with
  | nil =>
    intro mykwargs h
    simp [buildRequired] at h
    simp [← h]
  | cons p rest ih =>
    intro mykwargs h
    cases hp : dictGet kwargs p with
    | none => simp [buildRequired, hp] at h
    | some v =>
      cases hr : buildRequired rest kwargs with
      | error e => simp [buildRequired, hp, hr] at h
      | ok mk =>
        simp [buildRequired, hp, hr] at h
        simp [← h, ih mk hr]

theorem buildRequired_missing {V : Type} (req : List String) (kwargs : Bag V)
    (k : String) (hk : k ∈ req) (habs : dictGet kwargs k = none) :
    ∃ m, m ∈ req ∧ dictGet kwargs m = none ∧
      buildRequired req kwargs = Except.error (m ++ " not in parameter list") := by
  induction req with
  | nil => cases hk
  | cons p rest ih =>
    cases hp : dictGet kwargs p with
    | none =>
      exact ⟨p, List.mem_cons_self p rest, hp, by simp [buildRequired, hp]⟩
    | some v =>
      have hk2 : k ∈ rest := by
        rcases List.mem_cons.mp hk with h1 | h1
        · rw [h1, hp] at habs; cases habs
        · exact h1
      obtain ⟨m, hm, hmn, heq⟩ := ih hk2
      exact ⟨m, List.mem_cons_of_mem p hm, hmn, by simp [buildRequired, hp, heq]⟩

/-! Claim theorems. -/

/-- C1: for every registry and file path list, `determine_filetype`
returns the type tag of the first handler in registration order whose
filename-recognition check succeeds, and returns none — not an error —
when no registered handler recognizes the file-name set. -/
theorem c1_determine_filetype_first_match
    (registry : List RegHandler) (filePathList : List String) :
    determine_filetype registry filePathList =
      Option.map RegHandler.fileType
        (registry.find? (fun h => (h.check filePathList).isOk)) ∧
    (determine_filetype registry filePathList = none ↔
      ∀ h ∈ registry, ¬ (h.check filePathList).isOk = true) := by
  have h1 : determine_filetype registry filePathList =
      Option.map RegHandler.fileType
        (registry.find? (fun h => (h.check filePathList).isOk)) := by
    induction registry with
    | nil => rfl
    | cons h rest ih =>
      cases hc : h.check filePathList with
      | ok u =>
        rw [List.find?_cons_of_pos _ (by simp [hc, Except.isOk, Except.toBool])]
        simp [determine_filetype, RegHandler.validateFilename, hc]
      | error e =>
        rw [List.find?_cons_of_neg _ (by simp [hc, Except.isOk, Except.toBool])]
        simp only [determine_filetype, RegHandler.validateFilename, hc, ih]
  refine ⟨h1, ?_⟩
  rw [h1, Option.map_eq_none', List.find?_eq_none]

/-- C3: for every non-empty error text and every warning text, the report
formatter returns validity false and the errors banner, the error text,
the warnings banner and the warning text — the warnings block appearing
unconditionally even when the warning text is empty. -/
theorem c3_error_report_format (total_error warning : String)
    (h : total_error ≠ "") :
    determine_validity_and_log total_error warning =
      (false,
        "----------------ERRORS----------------\n" ++ total_error ++
          "-------------WARNINGS-------------\n" ++ warning) := by
  have hb : (total_error == "") = false := beq_eq_false_iff_ne.mpr h
  simp [determine_validity_and_log, hb]

/-- Witness for C3 at the inputs of test_invalid_determine_validity_and_log. -/
theorem c3_error_report_format_witness :
    ("error\nnow" : String) ≠ "" ∧
    determine_validity_and_log "error\nnow" "warning\nnow" =
      (false,
        "----------------ERRORS----------------\n" ++ "error\nnow" ++
          "-------------WARNINGS-------------\n" ++ "warning\nnow") :=
  ⟨by decide, c3_error_report_format "error\nnow" "warning\nnow" (by decide)⟩

/-- C4: for every warning text, when the error text is empty the report
formatter returns validity true, and the message is exactly the success
banner when the warning text is empty, and the success banner followed by
the warnings block when it is non-empty. -/
theorem c4_valid_report_format (warning : String) :
    determine_validity_and_log "" warning =
      (true,
        if warning = "" then "YOUR FILE IS VALIDATED!\n"
        else "YOUR FILE IS VALIDATED!\n" ++
          "-------------WARNINGS-------------\n" ++ warning) := by
  by_cases hw : warning = ""
  · simp [determine_validity_and_log, hw]
  · have hb : (warning == "") = false := beq_eq_false_iff_ne.mpr hw
    simp [determine_validity_and_log, hb, hw]

/-- C10: the guard `_check_parentid_input` raises the fixed
mutual-exclusion error exactly when both overrides are non-null, and
raises nothing when at most one of them is non-null. -/
theorem c10_parentid_filetype_mutual_exclusion
    (parentid filetype : Option String) :
    (parentid ≠ none ∧ filetype ≠ none →
      _check_parentid_input parentid filetype =
        Except.error "If you used --parentid, you must not use --filetype") ∧
    (¬ (parentid ≠ none ∧ filetype ≠ none) →
      _check_parentid_input parentid filetype = Except.ok ()) := by
  cases parentid <;> cases filetype <;> simp [_check_parentid_input]

/-- Witness for C10 at the four inputs of the guard tests. -/
theorem c10_parentid_filetype_mutual_exclusion_witness :
    _check_parentid_input (some "foo") (some "foo") =
      Except.error "If you used --parentid, you must not use --filetype" ∧
    _check_parentid_input none (some "foo") = Except.ok () ∧
    _check_parentid_input none none = Except.ok () ∧
    _check_parentid_input (some "foo") none = Except.ok () :=
  ⟨(c10_parentid_filetype_mutual_exclusion (some "foo") (some "foo")).1
      (by simp),
   (c10_parentid_filetype_mutual_exclusion none (some "foo")).2 (by simp),
   (c10_parentid_filetype_mutual_exclusion none none).2 (by simp),
   (c10_parentid_filetype_mutual_exclusion (some "foo") none).2 (by simp)⟩

/-- C9: for every file path list, `validateFilename` on a `Csv` instance
returns the base-class tag fileType — not csv — and never raises,
whatever the body of the subclass hook `_validate_filetype` is (so in
particular whether or not the filename ends in .csv): the subclass sets
`_filetype` while the base reads `_fileType`, and the base calls
`_validateFilename`, a name the subclass does not define. -/
theorem c9_csv_validateFilename_returns_base_tag
    (hook : List String → Except String Unit) (filePathList : List String) :
    validateFilenameVia (csvAttr hook) filePathList = Except.ok "fileType" ∧
    Csv._filetype = "csv" ∧ ("fileType" : String) ≠ "csv" :=
  ⟨rfl, rfl, by decide⟩

/-- C5: when no filetype is supplied and classification resolves no type,
`validate_single_file` raises the unrecognized-file-type error with its
fixed message and produces no validation report. -/
theorem c5_unresolved_type_raises_fixed_error
    (registry : List VHandler) (filePathList : List String)
    (hclass :
      determine_filetype (registry.map VHandler.toRegHandler) filePathList =
        none) :
    validate_single_file registry filePathList none =
      Except.error unrecognized_message := by
  simp [validate_single_file, hclass]

/-- Witness for C5 at the input of
test_wrongfiletype_validate_single_file: no handler of the example
registry recognizes wrong.txt. -/
theorem c5_unresolved_type_raises_fixed_error_witness :
    determine_filetype (exampleRegistry.map VHandler.toRegHandler)
      ["wrong.txt"] = none ∧
    validate_single_file exampleRegistry ["wrong.txt"] none =
      Except.error unrecognized_message :=
  ⟨rfl,
   c5_unresolved_type_raises_fixed_error exampleRegistry ["wrong.txt"] rfl⟩

/-- Helper: with an explicitly supplied filetype, `validate_single_file`
reduces to the registry-membership lookup on the supplied tag — the
dispatcher does not appear. -/
theorem validate_single_file_explicit (registry : List VHandler)
    (filePathList : List String) (t : String) :
    validate_single_file registry filePathList (some t) =
      match registry.find? (fun h => h.fileType == t) with
      | none => Except.error unrecognized_message
      | some h =>
        Except.ok
          ((determine_validity_and_log (h.run_validation filePathList).1
              (h.run_validation filePathList).2).1,
           (determine_validity_and_log (h.run_validation filePathList).1
              (h.run_validation filePathList).2).2, t) := rfl

/-- Helper: with an explicitly supplied filetype the outcome of
`validate_single_file` depends only on the tags and validation outcomes
of the registered handlers, not on their filename checks. -/
theorem validate_single_file_explicit_congr (filePathList : List String)
    (t : String) :
    ∀ (l1 l2 : List VHandler),
      l1.map (fun h => (h.fileType, h.run_validation)) =
        l2.map (fun h => (h.fileType, h.run_validation)) →
      validate_single_file l1 filePathList (some t) =
        validate_single_file l2 filePathList (some t) := by
  intro l1
  induction l1 with
  | nil =>
    intro l2 hmap
    cases l2 with
    | nil => rfl
    | cons b l => simp at hmap
  | cons a l1 ih =>
    intro l2 hmap
    cases l2 with
    | nil => simp at hmap
    | cons b l2 =>
      simp only [List.map_cons, List.cons.injEq, Prod.mk.injEq] at hmap
      obtain ⟨⟨hft, hrv⟩, htail⟩ := hmap
      rw [validate_single_file_explicit, validate_single_file_explicit]
      cases hp : (a.fileType == t) with
      | true =>
        rw [@List.find?_cons_of_pos VHandler (fun h => h.fileType == t) a l1 hp,
          @List.find?_cons_of_pos VHandler (fun h => h.fileType == t) b l2
            (by show (b.fileType == t) = true; rw [← hft]; exact hp)]
        simp [hrv]
      | false =>
        rw [@List.find?_cons_of_neg VHandler (fun h => h.fileType == t) a l1
            (by simp [hp]),
          @List.find?_cons_of_neg VHandler (fun h => h.fileType == t) b l2
            (by show ¬ (b.fileType == t) = true; rw [← hft]; simp [hp])]
        have h2 := ih l2 htail
        rw [validate_single_file_explicit, validate_single_file_explicit] at h2
        exact h2

/-- C2 counterexample: at the input of
test_filetype_validate_single_file — the explicitly supplied tag foobar,
which no handler registers — `validate_single_file` raises the
unrecognized-file-type error, although classification of the same file
list would have resolved the tag clinical.  This falsifies the claim that
the supplied tag is always used as the resolved type with no error raised
on its account. -/
theorem c2_counterexample_unregistered_supplied_tag_raises :
    validate_single_file exampleRegistry ["clinical.txt"] (some "foobar") =
      Except.error unrecognized_message ∧
    determine_filetype (exampleRegistry.map VHandler.toRegHandler)
      ["clinical.txt"] = some "clinical" :=
  ⟨rfl, rfl⟩

/-- C2 amended: when the explicitly supplied tag names a registered
handler, `validate_single_file` uses it without consulting the
dispatcher — the resolved type of the result is the supplied tag, the
report comes from that handler alone, and the outcome is unchanged under
any change to the filename checks (so it is the same even when
classification would return a different tag or none); an explicitly
supplied tag that names no registered handler raises the
unrecognized-file-type error. -/
theorem c2_explicit_filetype_bypasses_dispatch
    (registry : List VHandler) (filePathList : List String) (t : String)
    (h : VHandler)
    (hfind : registry.find? (fun hh => hh.fileType == t) = some h) :
    validate_single_file registry filePathList (some t) =
      Except.ok
        ((determine_validity_and_log (h.run_validation filePathList).1
            (h.run_validation filePathList).2).1,
         (determine_validity_and_log (h.run_validation filePathList).1
            (h.run_validation filePathList).2).2, t) ∧
    (∀ registry2 : List VHandler,
      registry2.map (fun hh => (hh.fileType, hh.run_validation)) =
        registry.map (fun hh => (hh.fileType, hh.run_validation)) →
      validate_single_file registry2 filePathList (some t) =
        validate_single_file registry filePathList (some t)) := by
  constructor
  · rw [validate_single_file_explicit, hfind]
  · intro registry2 hmap
    exact validate_single_file_explicit_congr filePathList t registry2
      registry hmap

/-- Witness for C2 amended: the registered tag clinical is supplied
explicitly on a file list its handler does not even recognize, and is
still used as the resolved type. -/
theorem c2_explicit_filetype_bypasses_dispatch_witness :
    exampleRegistry.find? (fun hh => hh.fileType == "clinical") =
      some clinicalHandler ∧
    validate_single_file exampleRegistry ["wrong.txt"] (some "clinical") =
      Except.ok
        ((determine_validity_and_log
            (clinicalHandler.run_validation ["wrong.txt"]).1
            (clinicalHandler.run_validation ["wrong.txt"]).2).1,
         (determine_validity_and_log
            (clinicalHandler.run_validation ["wrong.txt"]).1
            (clinicalHandler.run_validation ["wrong.txt"]).2).2, "clinical") :=
  ⟨rfl,
   (c2_explicit_filetype_bypasses_dispatch exampleRegistry ["wrong.txt"]
      "clinical" clinicalHandler rfl).1⟩

/-- C6: for every handler and parameter bag, each wrapper independently
enforces its own declared required-parameter set: if some name of
`_process_kwargs` is absent from the bag after merging the `preprocess`
output, `process` raises an error naming a required key that is missing
and `process_steps` is not invoked — the same error results whatever body
`process_steps` has; and if some name of `_validation_kwargs` is absent
from the bag, `validate` raises an error naming a required key that is
missing and `_validate` is not invoked, whatever body `_validate` has. -/
theorem c6_missing_required_parameter_raises {A D V R : Type}
    (self : FileTypeFormat A D V R) (filePath : A)
    (filePathList : List String) (kwargs : Bag V) :
    (∀ kp, kp ∈ self._process_kwargs →
      dictGet (dictUpdate kwargs (self.preprocess filePath kwargs)) kp =
        none →
      ∃ m, m ∈ self._process_kwargs ∧
        dictGet (dictUpdate kwargs (self.preprocess filePath kwargs)) m =
          none ∧
        self.process filePath kwargs =
          Except.error (m ++ " not in parameter list") ∧
        ∀ g : A → Bag V → R,
          FileTypeFormat.process { self with process_steps := g } filePath
              kwargs =
            Except.error (m ++ " not in parameter list")) ∧
    (∀ kv, kv ∈ self._validation_kwargs → dictGet kwargs kv = none →
      ∃ m, m ∈ self._validation_kwargs ∧ dictGet kwargs m = none ∧
        self.validate filePathList kwargs =
          Except.error (m ++ " not in parameter list") ∧
        ∀ gv : D → Bag V → String × String,
          FileTypeFormat.validate { self with _validate := gv } filePathList
              kwargs =
            Except.error (m ++ " not in parameter list")) := by
  constructor
  · intro kp hkp hkpAbsent
    obtain ⟨m, hm, hmn, heq⟩ :=
      buildRequired_missing self._process_kwargs _ kp hkp hkpAbsent
    exact ⟨m, hm, hmn, by simp [FileTypeFormat.process, heq],
      fun g => by simp [FileTypeFormat.process, heq]⟩
  · intro kv hkv hkvAbsent
    obtain ⟨m, hm, hmn, heq⟩ :=
      buildRequired_missing self._validation_kwargs kwargs kv hkv hkvAbsent
    exact ⟨m, hm, hmn, by simp [FileTypeFormat.validate, heq],
      fun gv => by simp [FileTypeFormat.validate, heq]⟩

/-- Witness for C6: the empty bag misses newPath for processing with the
Csv handler — whose `_validation_kwargs` is empty, so the process side
stands on its own there — and misses oncotreeLink for validation with the
concrete handler that declares one. -/
theorem c6_missing_required_parameter_raises_witness :
    ("newPath" ∈ (csvHandler store0)._process_kwargs ∧
     dictGet (dictUpdate [] ((csvHandler store0).preprocess dfIn []))
       "newPath" = none ∧
     "oncotreeLink" ∈ unitHandler._validation_kwargs ∧
     dictGet ([] : Bag Nat) "oncotreeLink" = none) ∧
    (∃ m, m ∈ (csvHandler store0)._process_kwargs ∧
      dictGet (dictUpdate [] ((csvHandler store0).preprocess dfIn [])) m =
        none ∧
      (csvHandler store0).process dfIn [] =
        Except.error (m ++ " not in parameter list") ∧
      ∀ g : DataFrame → Bag String → Option (FileStore → String × FileStore),
        FileTypeFormat.process
            { csvHandler store0 with process_steps := g } dfIn [] =
          Except.error (m ++ " not in parameter list")) ∧
    (∃ m, m ∈ unitHandler._validation_kwargs ∧
      dictGet ([] : Bag Nat) m = none ∧
      unitHandler.validate ["f.txt"] [] =
        Except.error (m ++ " not in parameter list") ∧
      ∀ gv : Unit → Bag Nat → String × String,
        FileTypeFormat.validate { unitHandler with _validate := gv }
            ["f.txt"] [] =
          Except.error (m ++ " not in parameter list")) :=
  ⟨⟨by decide, by decide, by decide, by decide⟩,
   (c6_missing_required_parameter_raises (csvHandler store0) dfIn
      ["f.txt"] []).1 "newPath" (by decide) (by decide),
   (c6_missing_required_parameter_raises unitHandler () ["f.txt"] []).2
     "oncotreeLink" (by decide) (by decide)⟩

/-- C7: for every handler and any two parameter bags that agree on the
declared required keys (and, for the processing path, on the keys the
`preprocess` hook consumes), the `process` and `validate` wrappers
produce the same result — extra caller-supplied keyword names cannot
affect the wrapped step — and on success the forwarded dictionary binds
exactly the declared required keys. -/
theorem c7_extra_parameters_cannot_affect_steps {A D V R : Type}
    (self : FileTypeFormat A D V R) (filePath : A)
    (filePathList : List String) (consumed : List String) (b1 b2 : Bag V)
    (hpreDep : ∀ c1 c2 : Bag V, agreeOn consumed c1 c2 →
      self.preprocess filePath c1 = self.preprocess filePath c2)
    (hcons : agreeOn consumed b1 b2)
    (hproc : agreeOn self._process_kwargs b1 b2)
    (hval : agreeOn self._validation_kwargs b1 b2) :
    self.process filePath b1 = self.process filePath b2 ∧
    self.validate filePathList b1 = self.validate filePathList b2 ∧
    (∀ mykwargs, buildRequired self._process_kwargs
        (dictUpdate b1 (self.preprocess filePath b1)) = Except.ok mykwargs →
      mykwargs.map Prod.fst = self._process_kwargs) ∧
    (∀ mykwargs, buildRequired self._validation_kwargs b1 =
        Except.ok mykwargs →
      mykwargs.map Prod.fst = self._validation_kwargs) := by
  have hpre := hpreDep b1 b2 hcons
  have hmerged : agreeOn self._process_kwargs
      (dictUpdate b1 (self.preprocess filePath b1))
      (dictUpdate b2 (self.preprocess filePath b2)) := by
    intro k hk
    rw [← hpre]
    unfold dictUpdate
    rw [dictGet_append, dictGet_append]
    cases dictGet (self.preprocess filePath b1) k
    · simpa using hproc k hk
    · rfl
  refine ⟨?_, ?_, fun mk h => buildRequired_keys _ _ mk h,
    fun mk h => buildRequired_keys _ _ mk h⟩
  · simp only [FileTypeFormat.process]
    rw [buildRequired_congr _ _ _ hmerged]
  · simp only [FileTypeFormat.validate]
    rw [buildRequired_congr _ _ _ hval]

/-- Witness for C7: `bagA` and `bagB` agree on every required key of the
concrete handler while `bagA` holds an extra binding, and the wrappers
cannot tell them apart. -/
theorem c7_extra_parameters_cannot_affect_steps_witness :
    (agreeOn ([] : List String) bagA bagB ∧
     agreeOn unitHandler._process_kwargs bagA bagB ∧
     agreeOn unitHandler._validation_kwargs bagA bagB) ∧
    (unitHandler.process () bagA = unitHandler.process () bagB ∧
     unitHandler.validate ["f.txt"] bagA =
       unitHandler.validate ["f.txt"] bagB ∧
     (∀ mykwargs, buildRequired unitHandler._process_kwargs
         (dictUpdate bagA (unitHandler.preprocess () bagA)) =
           Except.ok mykwargs →
       mykwargs.map Prod.fst = unitHandler._process_kwargs) ∧
     (∀ mykwargs, buildRequired unitHandler._validation_kwargs bagA =
         Except.ok mykwargs →
       mykwargs.map Prod.fst = unitHandler._validation_kwargs)) :=
  ⟨⟨by decide, by decide, by decide⟩,
   c7_extra_parameters_cannot_affect_steps unitHandler () ["f.txt"] []
     bagA bagB (fun _ _ _ => rfl) (by decide) (by decide) (by decide)⟩

/-- C8: loading a table whose headers are id and value through the
default tab-delimited read of the first path and processing it with the
Csv handler yields an output file whose headers are ID and VALUE and
whose rows are identical in count and content to the input, the
transform returning the caller-supplied destination path. -/
theorem c8_csv_load_transform_roundtrip
    (store : FileStore) (path newPath databaseSynId : String)
    (df : DataFrame)
    (hload : defaultReadFile store [path] = some df)
    (hcols : df.columns = ["id", "value"]) :
    ∃ step : FileStore → String × FileStore,
      (csvHandler store).process df
          [("newPath", newPath), ("databaseSynId", databaseSynId)] =
        Except.ok (some step) ∧
      (step store).1 = newPath ∧
      ∃ out : DataFrame,
        readStore (step store).2 newPath = some out ∧
        out.columns = df.columns.map strUpper ∧
        out.columns = ["ID", "VALUE"] ∧
        out.rows = df.rows := by
  refine ⟨Csv.process_steps df newPath databaseSynId, rfl, rfl,
    Csv._process df, ?_, rfl, ?_, rfl⟩
  · simp [Csv.process_steps, writeStore, readStore, List.lookup_cons]
  · simp [Csv._process, hcols]
    decide

/-- Witness for C8 at a concrete store and table. -/
theorem c8_csv_load_transform_roundtrip_witness :
    (defaultReadFile store0 ["in.txt"] = some dfIn ∧
     dfIn.columns = ["id", "value"]) ∧
    (∃ step : FileStore → String × FileStore,
      (csvHandler store0).process dfIn
          [("newPath", "out.txt"), ("databaseSynId", "syn123")] =
        Except.ok (some step) ∧
      (step store0).1 = "out.txt" ∧
      ∃ out : DataFrame,
        readStore (step store0).2 "out.txt" = some out ∧
        out.columns = dfIn.columns.map strUpper ∧
        out.columns = ["ID", "VALUE"] ∧
        out.rows = dfIn.rows) :=
  ⟨⟨rfl, rfl⟩,
   c8_csv_load_transform_roundtrip store0 "in.txt" "out.txt" "syn123"
     dfIn rfl rfl⟩

end SynapseGenie
